import Mathlib

/-!
Verification of the FCAI Telegram bot (`src/bot.py`) against its
natural-language specification.

The development shallowly embeds the parts of `bot.py` that the claims
concern:

* the credential-message parsing and portal-login flow of
  `handle_student_credentials` / `get_login_token` (lines 423-546);
* the heuristic student-profile extraction (lines 467-506);
* the navigation engine: `show_year_materials`, the directory / file /
  back branches of `button_handler` (lines 143-421), with the process
  filesystem abstracted as a map from paths to directory listings;
* the session bookkeeping of `handle_logout` (lines 227-247) and the
  dispatch chain of `button_handler` (lines 249-421).

Python strings are modelled as Lean `String`; Python dictionaries as
association lists with first-match lookup (keys are kept unique by the
insert/erase operations, which matches dictionary behaviour); the
Telegram transport, HTTP transport and filesystem are abstracted as
explicit inputs.  All definitions are computable so that concrete
witnesses evaluate by `decide` / `rfl`.
-/

/-! ## Python string primitives -/

/-- Python `needle in haystack` is a substring test.  We model it on the
character lists of the strings. -/
def strContains (s pat : String) : Bool :=
  s.toList.tails.any fun t => pat.toList.isPrefixOf t

/-- Python `s.startswith(p)`. -/
def strStartsWith (s pre : String) : Bool :=
  pre.toList.isPrefixOf s.toList

/-- Python `s.strip()`: drop whitespace from both ends. -/
def pyStrip (s : String) : String :=
  ⟨((s.toList.dropWhile Char.isWhitespace).reverse.dropWhile Char.isWhitespace).reverse⟩

/-- Auxiliary for `pySplit`: split a character list at every occurrence of
the separator character. -/
def splitChar (c : Char) : List Char → List (List Char)
  | [] => [[]]
  | x :: xs =>
    let r := splitChar c xs
    if x == c then [] :: r
    else
      match r with
      | [] => [[x]]
      | h :: t => (x :: h) :: t

/-- Python `s.split(c)` (full split, no maxsplit): the list of fragments
between every occurrence of the separator. -/
def pySplit (s : String) (c : Char) : List String :=
  (splitChar c s.toList).map fun l => ⟨l⟩

/-- Python `str(n)` for a natural number, via a fuelled decimal
formatter (the fuel `n + 1` always suffices since `n / 10` shrinks). -/
def natDecAux : Nat → Nat → List Char → List Char
  | 0, _, acc => acc
  | fuel + 1, n, acc =>
    let d := Char.ofNat (48 + n % 10)
    if n < 10 then d :: acc else natDecAux fuel (n / 10) (d :: acc)

/-- Decimal digit list of `n`, most significant first. -/
def decDigits (n : Nat) : List Char := natDecAux (n + 1) n []

/-- Python `str(n)`: the decimal rendering of a natural number. -/
def natDec (n : Nat) : String := ⟨decDigits n⟩

theorem natDecAux_eq_decDigits :
    ∀ fuel n acc, n < fuel → natDecAux fuel n acc = decDigits n ++ acc := by
  intro fuel
  induction fuel using Nat.strong_induction_on with
  | _ fuel ih =>
    intro n acc hn
    cases fuel with
    | zero => omega
    | succ f =>
      by_cases h10 : n < 10
      · simp [natDecAux, decDigits, h10]
      · have hdiv : n / 10 < n := Nat.div_lt_self (by omega) (by omega)
        have h1 : natDecAux (f + 1) n acc
            = natDecAux f (n / 10) (Char.ofNat (48 + n % 10) :: acc) := by
          simp [natDecAux, h10]
        have h2 : decDigits n = natDecAux n (n / 10) [Char.ofNat (48 + n % 10)] := by
          simp [decDigits, natDecAux, h10]
        rw [h1, ih f (by omega) _ _ (by omega), h2, ih n (by omega) _ _ (by omega)]
        simp

/-- Numeric value of a digit list (inverse of `decDigits` below). -/
def numVal (l : List Char) : Nat :=
  l.foldl (fun a c => 10 * a + (c.toNat - 48)) 0

theorem numVal_append_singleton (l : List Char) (c : Char) :
    numVal (l ++ [c]) = 10 * numVal l + (c.toNat - 48) := by
  simp [numVal, List.foldl_append]

theorem digit_toNat (m : Nat) (h : m < 10) : (Char.ofNat (48 + m)).toNat = 48 + m := by
  interval_cases m <;> decide

theorem numVal_decDigits : ∀ n, numVal (decDigits n) = n := by
  intro n
  induction n using Nat.strong_induction_on with
  | _ n ih =>
    by_cases h10 : n < 10
    · have hdig : decDigits n = [Char.ofNat (48 + n % 10)] := by
        simp [decDigits, natDecAux, h10]
      rw [hdig]
      have : numVal [Char.ofNat (48 + n % 10)] = (Char.ofNat (48 + n % 10)).toNat - 48 := by
        simp [numVal]
      rw [this, digit_toNat _ (by omega)]
      omega
    · have hdiv : n / 10 < n := Nat.div_lt_self (by omega) (by omega)
      have h2 : decDigits n = decDigits (n / 10) ++ [Char.ofNat (48 + n % 10)] := by
        have h3 : decDigits n = natDecAux n (n / 10) [Char.ofNat (48 + n % 10)] := by
          simp [decDigits, natDecAux, h10]
        rw [h3, natDecAux_eq_decDigits n (n / 10) _ (by omega)]
      rw [h2, numVal_append_singleton, digit_toNat _ (by omega), ih _ hdiv]
      omega

theorem natDec_injective {m n : Nat} (h : natDec m = natDec n) : m = n := by
  have hd : decDigits m = decDigits n := by
    have := congrArg String.data h
    simpa [natDec] using this
  have h2 := congrArg numVal hd
  rwa [numVal_decDigits, numVal_decDigits] at h2

/-! ## Directory listings and callback tokens

`show_year_materials` (bot.py lines 160-183) and the duplicated listing
code in `button_handler` (lines 304-331, 363-388) enumerate a listing
from index 1 and build callback data `f"d{idx}"` for sub-directories and
`f"f{idx}"` for files, storing `{token: os.path.join(dir, item)}` in
`context.user_data['paths']`. -/

/-- One entry of a directory listing: its name and whether
`os.path.isdir` holds for it. -/
structure Entry where
  name : String
  isDir : Bool
deriving DecidableEq, Repr

/-- Python `os.path.join(a, b)` for a relative second component. -/
def joinPath (a b : String) : String := a ++ "/" ++ b

/-- Callback data `f"d{idx}"` of a sub-directory button. -/
def dirToken (idx : Nat) : String := "d" ++ natDec idx

/-- Callback data `f"f{idx}"` of a file button. -/
def fileToken (idx : Nat) : String := "f" ++ natDec idx

theorem dirToken_injective {i j : Nat} (h : dirToken i = dirToken j) : i = j := by
  have hd := congrArg String.data h
  simp [dirToken, natDec, String.data] at hd
  exact natDec_injective (congrArg String.mk hd)

theorem fileToken_injective {i j : Nat} (h : fileToken i = fileToken j) : i = j := by
  have hd := congrArg String.data h
  simp [fileToken, natDec, String.data] at hd
  exact natDec_injective (congrArg String.mk hd)

theorem dirToken_ne_fileToken (i j : Nat) : dirToken i ≠ fileToken j := by
  intro h
  have hd := congrArg String.data h
  simp [dirToken, fileToken, natDec, String.data] at hd

/-- Token of the button generated for entry `e` at 1-based index `i`. -/
def entryToken (i : Nat) (e : Entry) : String :=
  if e.isDir then dirToken i else fileToken i

/-- The `context.user_data['paths']` dictionary built by the listing
code: directory entries first (the dict comprehension at lines 178-180),
then the `update` with file entries (lines 181-183).  Keys are distinct,
so an association list with first-match lookup models the dict. -/
def pathsTable (dir : String) (items : List Entry) : List (String × String) :=
  ((List.enumFrom 1 items).filterMap fun p =>
      if p.2.isDir then some (dirToken p.1, joinPath dir p.2.name) else none)
    ++ ((List.enumFrom 1 items).filterMap fun p =>
      if p.2.isDir then none else some (fileToken p.1, joinPath dir p.2.name))

/-- The rendered keyboard of a listing, as the list of pairs
(callback token of the button, path of the entry it was generated
from). -/
def renderListing (dir : String) (items : List Entry) : List (String × String) :=
  (List.enumFrom 1 items).map fun p => (entryToken p.1 p.2, joinPath dir p.2.name)

theorem mem_enumFrom_le {α : Type} :
    ∀ (l : List α) (k i : Nat) (e : α), (i, e) ∈ List.enumFrom k l → k ≤ i := by
  intro l
  induction l with
  | nil => intro k i e h; simp [List.enumFrom] at h
  | cons x xs ih =>
    intro k i e h
    simp only [List.enumFrom, List.mem_cons] at h
    rcases h with h | h
    · cases h; omega
    · have := ih (k + 1) i e h; omega

theorem lookup_append_some {α β : Type} [BEq α] {l₁ l₂ : List (α × β)} {k : α} {v : β}
    (h : List.lookup k l₁ = some v) : List.lookup k (l₁ ++ l₂) = some v := by
  induction l₁ with
  | nil => simp [List.lookup] at h
  | cons p rest ih =>
    obtain ⟨a, b⟩ := p
    rw [List.cons_append]
    rw [List.lookup_cons] at h ⊢
    cases hk : (k == a) with
    | true => rw [hk] at h; exact h
    | false => rw [hk] at h; exact ih h

theorem lookup_append_none {α β : Type} [BEq α] {l₁ : List (α × β)} (l₂ : List (α × β)) {k : α}
    (h : List.lookup k l₁ = none) : List.lookup k (l₁ ++ l₂) = List.lookup k l₂ := by
  induction l₁ with
  | nil => simp
  | cons p rest ih =>
    obtain ⟨a, b⟩ := p
    rw [List.cons_append]
    rw [List.lookup_cons] at h ⊢
    cases hk : (k == a) with
    | true => rw [hk] at h; exact absurd h (by simp)
    | false => rw [hk] at h; exact ih h

/-- A file token never matches a key of the directory part of the paths
dictionary. -/
theorem lookup_dirPart_fileToken (dir : String) (i : Nat) :
    ∀ l : List (Nat × Entry),
      List.lookup (fileToken i)
        (l.filterMap fun p =>
          if p.2.isDir then some (dirToken p.1, joinPath dir p.2.name) else none) = none := by
  intro l
  induction l with
  | nil => simp
  | cons p rest ih =>
    cases hd : p.2.isDir
    · simpa [List.filterMap_cons, hd] using ih
    · have hred : List.filterMap
          (fun p => if p.2.isDir then some (dirToken p.1, joinPath dir p.2.name) else none)
          (p :: rest)
          = (dirToken p.1, joinPath dir p.2.name)
            :: List.filterMap
              (fun p => if p.2.isDir then some (dirToken p.1, joinPath dir p.2.name) else none)
              rest := by
        simp [List.filterMap_cons, hd]
      rw [hred]
      have hne : (fileToken i == dirToken p.1) = false := by
        simp only [beq_eq_false_iff_ne, ne_eq]
        exact fun hEq => dirToken_ne_fileToken p.1 i hEq.symm
      rw [List.lookup_cons, hne]
      exact ih

/-- Looking up the token of a directory entry in the directory part of
the paths dictionary yields exactly that entry's joined path. -/
theorem lookup_dirPart_hit (dir : String) :
    ∀ (l : List Entry) (k i : Nat) (e : Entry),
      (i, e) ∈ List.enumFrom k l → e.isDir = true →
      List.lookup (dirToken i)
        ((List.enumFrom k l).filterMap fun p =>
          if p.2.isDir then some (dirToken p.1, joinPath dir p.2.name) else none)
        = some (joinPath dir e.name) := by
  intro l
  induction l with
  | nil => intro k i e h; simp [List.enumFrom] at h
  | cons x xs ih =>
    intro k i e hmem hsel
    have henum : List.enumFrom k (x :: xs) = (k, x) :: List.enumFrom (k + 1) xs := rfl
    rw [henum] at hmem ⊢
    rw [List.mem_cons] at hmem
    rcases hmem with h | h
    · rw [Prod.mk.injEq] at h
      obtain ⟨rfl, rfl⟩ := h
      have hred : List.filterMap
          (fun p => if p.2.isDir then some (dirToken p.1, joinPath dir p.2.name) else none)
          ((i, e) :: List.enumFrom (i + 1) xs)
          = (dirToken i, joinPath dir e.name)
            :: List.filterMap
              (fun p => if p.2.isDir then some (dirToken p.1, joinPath dir p.2.name) else none)
              (List.enumFrom (i + 1) xs) := by
        simp [List.filterMap_cons, hsel]
      rw [hred, List.lookup_cons, beq_self_eq_true]
    · have hk : k + 1 ≤ i := mem_enumFrom_le _ _ _ _ h
      cases hx : x.isDir
      · have hred : List.filterMap
            (fun p => if p.2.isDir then some (dirToken p.1, joinPath dir p.2.name) else none)
            ((k, x) :: List.enumFrom (k + 1) xs)
            = List.filterMap
              (fun p => if p.2.isDir then some (dirToken p.1, joinPath dir p.2.name) else none)
              (List.enumFrom (k + 1) xs) := by
          simp [List.filterMap_cons, hx]
        rw [hred]
        exact ih (k + 1) i e h hsel
      · have hred : List.filterMap
            (fun p => if p.2.isDir then some (dirToken p.1, joinPath dir p.2.name) else none)
            ((k, x) :: List.enumFrom (k + 1) xs)
            = (dirToken k, joinPath dir x.name)
              :: List.filterMap
                (fun p => if p.2.isDir then some (dirToken p.1, joinPath dir p.2.name) else none)
                (List.enumFrom (k + 1) xs) := by
          simp [List.filterMap_cons, hx]
        rw [hred]
        have hne : (dirToken i == dirToken k) = false := by
          simp only [beq_eq_false_iff_ne, ne_eq]
          exact fun hEq => by have := dirToken_injective hEq; omega
        rw [List.lookup_cons, hne]
        exact ih (k + 1) i e h hsel

/-- Looking up the token of a file entry in the file part of the paths
dictionary yields exactly that entry's joined path. -/
theorem lookup_filePart_hit (dir : String) :
    ∀ (l : List Entry) (k i : Nat) (e : Entry),
      (i, e) ∈ List.enumFrom k l → e.isDir = false →
      List.lookup (fileToken i)
        ((List.enumFrom k l).filterMap fun p =>
          if p.2.isDir then none else some (fileToken p.1, joinPath dir p.2.name))
        = some (joinPath dir e.name) := by
  intro l
  induction l with
  | nil => intro k i e h; simp [List.enumFrom] at h
  | cons x xs ih =>
    intro k i e hmem hsel
    have henum : List.enumFrom k (x :: xs) = (k, x) :: List.enumFrom (k + 1) xs := rfl
    rw [henum] at hmem ⊢
    rw [List.mem_cons] at hmem
    rcases hmem with h | h
    · rw [Prod.mk.injEq] at h
      obtain ⟨rfl, rfl⟩ := h
      have hred : List.filterMap
          (fun p => if p.2.isDir then none else some (fileToken p.1, joinPath dir p.2.name))
          ((i, e) :: List.enumFrom (i + 1) xs)
          = (fileToken i, joinPath dir e.name)
            :: List.filterMap
              (fun p => if p.2.isDir then none else some (fileToken p.1, joinPath dir p.2.name))
              (List.enumFrom (i + 1) xs) := by
        simp [List.filterMap_cons, hsel]
      rw [hred, List.lookup_cons, beq_self_eq_true]
    · have hk : k + 1 ≤ i := mem_enumFrom_le _ _ _ _ h
      cases hx : x.isDir
      · have hred : List.filterMap
            (fun p => if p.2.isDir then none else some (fileToken p.1, joinPath dir p.2.name))
            ((k, x) :: List.enumFrom (k + 1) xs)
            = (fileToken k, joinPath dir x.name)
              :: List.filterMap
                (fun p => if p.2.isDir then none else some (fileToken p.1, joinPath dir p.2.name))
                (List.enumFrom (k + 1) xs) := by
          simp [List.filterMap_cons, hx]
        rw [hred]
        have hne : (fileToken i == fileToken k) = false := by
          simp only [beq_eq_false_iff_ne, ne_eq]
          exact fun hEq => by have := fileToken_injective hEq; omega
        rw [List.lookup_cons, hne]
        exact ih (k + 1) i e h hsel
      · have hred : List.filterMap
            (fun p => if p.2.isDir then none else some (fileToken p.1, joinPath dir p.2.name))
            ((k, x) :: List.enumFrom (k + 1) xs)
            = List.filterMap
              (fun p => if p.2.isDir then none else some (fileToken p.1, joinPath dir p.2.name))
              (List.enumFrom (k + 1) xs) := by
          simp [List.filterMap_cons, hx]
        rw [hred]
        exact ih (k + 1) i e h hsel

/-- C6: Token round-trip — every button rendered for a directory listing
resolves through the stored `paths` dictionary to exactly the path of
the entry it was generated from, and directory tokens can never equal
file tokens thanks to the `d` / `f` single-letter namespacing. -/
theorem rendered_token_resolves (dir : String) (items : List Entry) :
    (∀ tp ∈ renderListing dir items,
        List.lookup tp.1 (pathsTable dir items) = some tp.2)
    ∧ ∀ i j : Nat, dirToken i ≠ fileToken j := by
  refine ⟨?_, dirToken_ne_fileToken⟩
  intro tp htp
  rw [renderListing, List.mem_map] at htp
  obtain ⟨⟨i, e⟩, hmem, rfl⟩ := htp
  cases hk : e.isDir
  · have htok : entryToken i e = fileToken i := by simp [entryToken, hk]
    rw [htok, pathsTable,
      lookup_append_none _ (lookup_dirPart_fileToken dir i _)]
    exact lookup_filePart_hit dir items 1 i e hmem hk
  · have htok : entryToken i e = dirToken i := by simp [entryToken, hk]
    rw [htok, pathsTable]
    exact lookup_append_some (lookup_dirPart_hit dir items 1 i e hmem hk)

/-- Witness for C6 at a concrete listing: in a year directory holding
the sub-directory `Math` and the file `ch1.pdf`, the second button's
token `f2` resolves to the path of `ch1.pdf`. -/
theorem rendered_token_resolves_witness :
    List.lookup "f2" (pathsTable "study_materials/year_1" [⟨"Math", true⟩, ⟨"ch1.pdf", false⟩])
      = some "study_materials/year_1/ch1.pdf" :=
  (rendered_token_resolves "study_materials/year_1" [⟨"Math", true⟩, ⟨"ch1.pdf", false⟩]).1
    ("f2", "study_materials/year_1/ch1.pdf") (by decide)

/-! ## Profile extraction (bot.py lines 461-506)

The student-info page is parsed with BeautifulSoup.  We model the parsed
document by the data the extraction code inspects: the cell texts of all
table rows (over all tables, in document order), and the document's text
nodes together with the text of their enclosing element (for the
`find_all(text=...)` / `find_parent()` fallback searches). -/

/-- A text node and the text of its enclosing element. -/
structure TextNode where
  text : String
  parentText : String
deriving DecidableEq, Repr

/-- The parsed profile page. `tables` lists, per table, the rows, each
row being the list of its `td` / `th` cell texts. -/
structure ProfileHtml where
  tables : List (List (List String))
  textNodes : List TextNode
deriving DecidableEq, Repr

/-- The `student_info` dictionary; each key is absent (`none`) until
assigned, which models `student_info.get(...)`. -/
structure StudentInfo where
  name : Option String := none
  national_id : Option String := none
  mobile : Option String := none
  email : Option String := none
  study_group : Option String := none
deriving DecidableEq, Repr

/-- The five profile keys the table scan can assign. -/
inductive PField
  | name
  | nationalId
  | mobile
  | emailField
  | studyGroup
deriving DecidableEq, Repr

/-- The `if`/`elif` keyword chain of lines 480-489 classifying a row's
label cell; the first matching branch decides the key. -/
def classifyLabel (label : String) : Option PField :=
  if strContains label "الاسم" || strContains label "اسم الطالب" then some .name
  else if strContains label "الرقم القومي" then some .nationalId
  else if strContains label "الموبايل" || strContains label "رقم الهاتف" then some .mobile
  else if strContains label "الايميل" || strContains label "البريد الإلكتروني" then some .emailField
  else if strContains label "الفرقة" || strContains label "المستوى" || strContains label "البرنامج"
    then some .studyGroup
  else none

/-- The key/value pair a row contributes: with at least two cells, cell 0
stripped is the label and cell 1 stripped the value (lines 475-477). -/
def rowKV (cells : List String) : Option (PField × String) :=
  match cells with
  | c0 :: c1 :: _ => (classifyLabel (pyStrip c0)).map fun f => (f, pyStrip c1)
  | _ => none

/-- Dictionary assignment `student_info[key] = value`. -/
def setField (info : StudentInfo) : PField → String → StudentInfo
  | .name, v => { info with name := some v }
  | .nationalId, v => { info with national_id := some v }
  | .mobile, v => { info with mobile := some v }
  | .emailField, v => { info with email := some v }
  | .studyGroup, v => { info with study_group := some v }

/-- Dictionary read `student_info.get(key)`. -/
def getField (info : StudentInfo) : PField → Option String
  | .name => info.name
  | .nationalId => info.national_id
  | .mobile => info.mobile
  | .emailField => info.email
  | .studyGroup => info.study_group

/-- Processing of one table row (lines 473-489): a row with a
classifiable label assigns its value, unconditionally overwriting. -/
def scanStep (info : StudentInfo) (cells : List String) : StudentInfo :=
  match rowKV cells with
  | some (f, v) => setField info f v
  | none => info

/-- The table scan (lines 470-489): every row of every table, in
document order. -/
def tableScan (tables : List (List (List String))) : StudentInfo :=
  (tables.flatten).foldl scanStep {}

/-- Python truthiness of `student_info.get(key)`: false for a missing
key and for the empty string. -/
def pyTruthy : Option String → Bool
  | none => false
  | some s => !(s == "")

/-- The name fallback (lines 492-496): if `name` is falsy, the stripped
parent text of the first text node containing the login email. -/
def applyNameFallback (info : StudentInfo) (nodes : List TextNode) (email : String) :
    StudentInfo :=
  if pyTruthy info.name then info
  else
    match nodes.find? fun n => strContains n.text email with
    | some n => { info with name := some (pyStrip n.parentText) }
    | none => info

/-- The study-group fallback (lines 498-502): if `study_group` is falsy,
the stripped parent text of the first text node containing one of the two
program keywords. -/
def applyGroupFallback (info : StudentInfo) (nodes : List TextNode) : StudentInfo :=
  if pyTruthy info.study_group then info
  else
    match nodes.find? fun n => strContains n.text "المستوى" || strContains n.text "برنامج" with
    | some n => { info with study_group := some (pyStrip n.parentText) }
    | none => info

/-- Python `d.get(key, default)`: the default applies only when the key
is ABSENT, not when it holds an empty string (lines 505-506). -/
def withDefaultIfAbsent : Option String → String → String
  | some v, _ => v
  | none, d => d

/-- The `student_info` dictionary after the scan and both fallbacks. -/
def resolvedInfo (html : ProfileHtml) (email : String) : StudentInfo :=
  applyGroupFallback (applyNameFallback (tableScan html.tables) html.textNodes email)
    html.textNodes

/-- The extracted profile fields as used to build the session entry
(lines 504-516). -/
structure StudentProfile where
  name : String
  study_group : String
  national_id : Option String
  mobile : Option String
  emailField : Option String
deriving DecidableEq, Repr

/-- Profile extraction: table scan, the two fallback searches, then the
presence-based defaults of lines 505-506. -/
def extractProfile (html : ProfileHtml) (email : String) : StudentProfile :=
  let info := resolvedInfo html email
  { name := withDefaultIfAbsent info.name "Student"
    study_group := withDefaultIfAbsent info.study_group "Not specified"
    national_id := info.national_id
    mobile := info.mobile
    emailField := info.email }

/-! ### Claims C3 and C4 -/

/-- Counterexample input for C3: a profile page whose only table row has
the name label with an empty value cell, and no text nodes. -/
def c3Html : ProfileHtml := ⟨[[["الاسم", ""]]], []⟩

/-- Counterexample for C3: the claim says extraction always returns a
non-empty `name`, but a matching table row with an empty value cell
assigns the empty string, and the presence-based default of line 505
(`student_info.get('name', "Student")`) does not replace it. -/
theorem extract_name_can_be_empty :
    (extractProfile c3Html "user@fci.edu").name = "" := by decide

/-- C3 (amended): profile extraction is total, and the literal defaults
`"Student"` / `"Not specified"` (both non-empty) are applied exactly
when the table scan and the fallback searches left the key unassigned —
but a scan hit with an empty value leaves the field empty. -/
theorem extract_defaults_when_unassigned (html : ProfileHtml) (email : String)
    (hn : (resolvedInfo html email).name = none)
    (hg : (resolvedInfo html email).study_group = none) :
    (extractProfile html email).name = "Student"
      ∧ (extractProfile html email).study_group = "Not specified"
      ∧ (extractProfile html email).name ≠ ""
      ∧ (extractProfile html email).study_group ≠ "" := by
  rw [extractProfile]
  rw [hn, hg]
  refine ⟨rfl, rfl, ?_, ?_⟩
  · show withDefaultIfAbsent none "Student" ≠ ""
    decide
  · show withDefaultIfAbsent none "Not specified" ≠ ""
    decide

/-- Witness for C3 (amended) on the empty page: both scans resolve
nothing and the defaults apply. -/
theorem extract_defaults_when_unassigned_witness :
    (extractProfile ⟨[], []⟩ "a@b.c").name = "Student"
      ∧ (extractProfile ⟨[], []⟩ "a@b.c").study_group = "Not specified" :=
  ⟨(extract_defaults_when_unassigned ⟨[], []⟩ "a@b.c" (by decide) (by decide)).1,
    (extract_defaults_when_unassigned ⟨[], []⟩ "a@b.c" (by decide) (by decide)).2.1⟩

/-- Counterexample input for C4: two rows whose labels both match the
name keyword set, with different values. -/
def c4Tables : List (List (List String)) := [[["الاسم", "A"], ["الاسم", "B"]]]

/-- First-match semantics as the claim C4 states it (modelled from the
spec's words, for comparison with the code's behaviour): the value of
the FIRST table row whose label matches the field. -/
def firstMatchValue (tables : List (List (List String))) (f : PField) : Option String :=
  (((tables.flatten).filterMap rowKV).find? fun p => p.1 == f).map Prod.snd

/-- Counterexample for C4: on two name rows `A` then `B` the code keeps
`B` (the LAST match), while the claim predicts the first match `A`. -/
theorem tableScan_not_first_match :
    getField (tableScan c4Tables) .name = some "B"
      ∧ firstMatchValue c4Tables .name = some "A"
      ∧ (some "B" : Option String) ≠ some "A" := by decide

/-- Last-match semantics: the value of the LAST row pair matching the
field, or `none` when no row matches. -/
def lastMatchValue (f : PField) : List (PField × String) → Option String
  | [] => none
  | (g, v) :: rest =>
    match lastMatchValue f rest with
    | some w => some w
    | none => if g == f then some v else none

theorem getField_setField_same (info : StudentInfo) (f : PField) (v : String) :
    getField (setField info f v) f = some v := by
  cases f <;> rfl

theorem getField_setField_ne (info : StudentInfo) {f g : PField} (v : String)
    (h : g ≠ f) : getField (setField info g v) f = getField info f := by
  cases f <;> cases g <;> first | rfl | exact absurd rfl h

theorem getField_empty (f : PField) : getField {} f = none := by
  cases f <;> rfl

theorem foldl_scan_last (rows : List (List String)) (acc : StudentInfo) (f : PField) :
    getField (rows.foldl scanStep acc) f
      = match lastMatchValue f (rows.filterMap rowKV) with
        | some v => some v
        | none => getField acc f := by
  induction rows generalizing acc with
  | nil => simp [lastMatchValue]
  | cons r rest ih =>
    rw [List.foldl_cons, List.filterMap_cons]
    cases hr : rowKV r with
    | none =>
      have hstep : scanStep acc r = acc := by simp [scanStep, hr]
      rw [hstep, ih]
    | some p =>
      obtain ⟨g, v⟩ := p
      have hstep : scanStep acc r = setField acc g v := by simp [scanStep, hr]
      rw [hstep, ih]
      show _ = match lastMatchValue f ((g, v) :: rest.filterMap rowKV) with
        | some w => some w
        | none => getField acc f
      rw [lastMatchValue]
      cases hl : lastMatchValue f (rest.filterMap rowKV) with
      | some w => simp
      | none =>
        by_cases hgf : g = f
        · subst hgf
          simp [getField_setField_same]
        · simp [getField_setField_ne _ _ hgf, hgf]

/-- C4 (amended): in the table scan, every field's extracted value is
the value cell of the LAST table row whose label cell matches that
field's keyword set (each matching row overwrites; within one row only
the first branch of the keyword chain is assigned); fields with no
matching row stay unassigned. -/
theorem tableScan_last_match (tables : List (List (List String))) (f : PField) :
    getField (tableScan tables) f
      = lastMatchValue f ((tables.flatten).filterMap rowKV) := by
  rw [tableScan, foldl_scan_last]
  cases h : lastMatchValue f ((tables.flatten).filterMap rowKV) with
  | none => simp [getField_empty]
  | some v => simp

/-! ## Login flow (bot.py lines 423-546)

`handle_student_credentials` parses the free-text message, fetches the
anti-forgery token, POSTs the credentials and classifies the response;
the whole body sits in one `try` whose `except` replies a generic error.
The HTTP exchanges are abstracted by a `LoginEnv` record holding the
responses the portal would return; the Excel record sink (line 519) is
an external collaborator and is not modelled. -/

/-- An `input` element of the login page: its `name` attribute and its
optional `value` attribute. -/
structure InputTag where
  name : String
  value : Option String
deriving DecidableEq, Repr

/-- `get_login_token` (lines 536-546): on HTTP 200, the `value`
attribute of the first input named `__RequestVerificationToken`; any
failure (non-200, no such input — a `TypeError` on the subscript —, or a
missing `value` attribute — a `KeyError`) is caught and yields `None`. -/
def get_login_token (status : Nat) (inputs : List InputTag) : Option String :=
  if status == 200 then
    match inputs.find? fun i => i.name == "__RequestVerificationToken" with
    | some tag => tag.value
    | none => none
  else none

/-- Line 425, `email, password = update.message.text.split(':')`: a full
split on every colon that must produce exactly two parts; anything else
raises `ValueError` (modelled as `none`). -/
def parse_credentials (msg : String) : Option (String × String) :=
  match pySplit msg ':' with
  | [e, p] => some (e, p)
  | _ => none

/-- Line 456: the login POST counts as successful when the status is 200
and the body does not contain the literal invalid-credentials marker. -/
def classify_login (status : Nat) (body : String) : Bool :=
  status == 200 && !(strContains body "Invalid login attempt")

/-- The per-user session entry stored at lines 509-516. -/
structure SessionEntry where
  name : String
  email : String
  study_group : String
  telegram_username : Option String
  national_id : String
  mobile : String
deriving DecidableEq, Repr

/-- Python dictionary deletion `del d[k]` guarded by `if k in d`. -/
def eraseKey {β : Type} (k : Nat) (l : List (Nat × β)) : List (Nat × β) :=
  l.filter fun p => !(p.1 == k)

/-- Python dictionary assignment `d[k] = v` (keys stay unique). -/
def insertKey {β : Type} (k : Nat) (v : β) (l : List (Nat × β)) : List (Nat × β) :=
  (k, v) :: eraseKey k l

/-- Python dictionary read `d.get(k)` / `d[k]`. -/
def lookupKey {β : Type} (k : Nat) (l : List (Nat × β)) : Option β :=
  List.lookup k l

/-- The module-level mutable dictionaries `sessions`, `user_states` and
`file_data` of bot.py (lines 20-25), keyed by Telegram user id. -/
structure BotState where
  sessions : List (Nat × SessionEntry)
  userStates : List (Nat × String)
  fileData : List (Nat × String)
deriving DecidableEq, Repr

/-- The message `handle_student_credentials` replies with on each path. -/
inductive Reply
  | genericError
  | initFailed
  | invalidCredentials
  | fetchInfoFailed
  | mainMenu (entry : SessionEntry)
deriving DecidableEq, Repr

/-- The portal responses observed during one login attempt. -/
structure LoginEnv where
  loginPageStatus : Nat
  loginPageInputs : List InputTag
  postStatus : Nat
  postBody : String
  infoStatus : Nat
  infoHtml : ProfileHtml
deriving DecidableEq, Repr

/-- Outcome of one `handle_student_credentials` call: the reply sent,
whether the credential POST was attempted, and the resulting global
state. -/
structure LoginResult where
  reply : Reply
  posted : Bool
  state : BotState
deriving DecidableEq, Repr

/-- `handle_student_credentials` (lines 423-534).  `if not token`
(line 430) is true for both a missing token and an empty-string token,
hence the two `initFailed` branches. -/
def handle_student_credentials (uid : Nat) (username : Option String) (msgText : String)
    (env : LoginEnv) (st : BotState) : LoginResult :=
  match parse_credentials msgText with
  | none => ⟨.genericError, false, st⟩
  | some (email, _password) =>
    match get_login_token env.loginPageStatus env.loginPageInputs with
    | none => ⟨.initFailed, false, st⟩
    | some tok =>
      if tok == "" then ⟨.initFailed, false, st⟩
      else
        if classify_login env.postStatus env.postBody then
          if env.infoStatus == 200 then
            let prof := extractProfile env.infoHtml email
            let entry : SessionEntry :=
              { name := prof.name
                email := email
                study_group := prof.study_group
                telegram_username := username
                national_id := prof.national_id.getD ""
                mobile := prof.mobile.getD "" }
            ⟨.mainMenu entry, true,
              { st with
                  sessions := insertKey uid entry st.sessions
                  userStates := insertKey uid "student_menu" st.userStates }⟩
          else ⟨.fetchInfoFailed, true, st⟩
        else ⟨.invalidCredentials, true, st⟩

/-! ### Claims C1, C2 and C5 -/

/-- C1: once the credential POST is made, its response is classified as
Success exactly when the HTTP status is 200 and the body does not
contain the literal marker `"Invalid login attempt"`; in every other
case the user is told the credentials are invalid and the global state
(in particular the session store) is unchanged. -/
theorem login_success_classification (uid : Nat) (username : Option String)
    (msgText : String) (env : LoginEnv) (st : BotState) (email password tok : String)
    (hp : parse_credentials msgText = some (email, password))
    (ht : get_login_token env.loginPageStatus env.loginPageInputs = some tok)
    (hne : tok ≠ "") :
    (classify_login env.postStatus env.postBody
        = (env.postStatus == 200 && !(strContains env.postBody "Invalid login attempt")))
      ∧ (classify_login env.postStatus env.postBody = false →
          (handle_student_credentials uid username msgText env st).reply = .invalidCredentials
            ∧ (handle_student_credentials uid username msgText env st).state = st)
      ∧ (classify_login env.postStatus env.postBody = true →
          (handle_student_credentials uid username msgText env st).reply
            ≠ .invalidCredentials) := by
  have htok : (tok == "") = false := by simp [hne]
  refine ⟨rfl, ?_, ?_⟩
  · intro hcl
    rw [handle_student_credentials, hp, ht]
    simp [htok, hcl]
  · intro hcl
    rw [handle_student_credentials, hp, ht]
    simp only [htok, Bool.false_eq_true, if_false, hcl, if_true]
    cases hinfo : (env.infoStatus == 200) <;> simp [hinfo]

/-- Witness for C1: with a parseable message, a good token page and a
login POST answered 403, the handler reports invalid credentials and
leaves the state unchanged. -/
theorem login_success_classification_witness :
    (handle_student_credentials 7 none "a@b.c:pw"
        ⟨200, [⟨"__RequestVerificationToken", some "tok"⟩], 403, "", 200, ⟨[], []⟩⟩
        ⟨[], [], []⟩).reply = .invalidCredentials :=
  ((login_success_classification 7 none "a@b.c:pw"
      ⟨200, [⟨"__RequestVerificationToken", some "tok"⟩], 403, "", 200, ⟨[], []⟩⟩
      ⟨[], [], []⟩ "a@b.c" "pw" "tok" (by decide) (by decide) (by decide)).2.1
    (by decide)).1

/-- C2: for every login-page body lacking the anti-forgery input field,
token retrieval returns nothing, the credential POST is never attempted,
the user is told initialization failed and the state is unchanged. -/
theorem missing_token_aborts (uid : Nat) (username : Option String)
    (msgText : String) (env : LoginEnv) (st : BotState) (email password : String)
    (hp : parse_credentials msgText = some (email, password))
    (hmiss : env.loginPageInputs.find?
        (fun i => i.name == "__RequestVerificationToken") = none) :
    get_login_token env.loginPageStatus env.loginPageInputs = none
      ∧ (handle_student_credentials uid username msgText env st).reply = .initFailed
      ∧ (handle_student_credentials uid username msgText env st).posted = false
      ∧ (handle_student_credentials uid username msgText env st).state = st := by
  have htok : get_login_token env.loginPageStatus env.loginPageInputs = none := by
    rw [get_login_token]
    cases h : (env.loginPageStatus == 200)
    · simp
    · simp [hmiss]
  refine ⟨htok, ?_⟩
  rw [handle_student_credentials, hp, htok]
  exact ⟨rfl, rfl, rfl⟩

/-- Witness for C2: a login page with an unrelated input only. -/
theorem missing_token_aborts_witness :
    (handle_student_credentials 7 none "a@b.c:pw"
        ⟨200, [⟨"Email", some "x"⟩], 200, "", 200, ⟨[], []⟩⟩ ⟨[], [], []⟩).reply
      = .initFailed ∧
    (handle_student_credentials 7 none "a@b.c:pw"
        ⟨200, [⟨"Email", some "x"⟩], 200, "", 200, ⟨[], []⟩⟩ ⟨[], [], []⟩).posted
      = false :=
  ⟨(missing_token_aborts 7 none "a@b.c:pw"
      ⟨200, [⟨"Email", some "x"⟩], 200, "", 200, ⟨[], []⟩⟩ ⟨[], [], []⟩
      "a@b.c" "pw" (by decide) (by decide)).2.1,
    (missing_token_aborts 7 none "a@b.c:pw"
      ⟨200, [⟨"Email", some "x"⟩], 200, "", 200, ⟨[], []⟩⟩ ⟨[], [], []⟩
      "a@b.c" "pw" (by decide) (by decide)).2.2.1⟩

/-- Split on the FIRST occurrence of the separator, as claim C5 states
it (modelled from the spec's words, for comparison with the code's
full split). -/
def splitFirstChar (c : Char) : List Char → Option (List Char × List Char)
  | [] => none
  | x :: xs =>
    if x == c then some ([], xs)
    else (splitFirstChar c xs).map fun p => (x :: p.1, p.2)

/-- First-colon credential parsing as the claim describes it: identifier
before the first colon, secret (possibly containing colons) after it. -/
def splitFirstColon (s : String) : Option (String × String) :=
  (splitFirstChar ':' s.toList).map fun p => (⟨p.1⟩, ⟨p.2⟩)

/-- A login environment in which a successfully parsed message would
proceed all the way to the POST. -/
def c5Env : LoginEnv :=
  ⟨200, [⟨"__RequestVerificationToken", some "tok"⟩], 200, "", 200, ⟨[], []⟩⟩

/-- Counterexample for C5: the code does a full split, not a single
split on the first colon — a secret containing a colon is not preserved
whole; the message is rejected with the generic error and no POST is
attempted, while the claim predicts the pair `(user@fci.edu, pa:ss)`. -/
theorem parse_credentials_not_first_colon_split :
    parse_credentials "user@fci.edu:pa:ss" = none
      ∧ splitFirstColon "user@fci.edu:pa:ss" = some ("user@fci.edu", "pa:ss")
      ∧ (handle_student_credentials 7 none "user@fci.edu:pa:ss" c5Env
          ⟨[], [], []⟩).reply = .genericError
      ∧ (handle_student_credentials 7 none "user@fci.edu:pa:ss" c5Env
          ⟨[], [], []⟩).posted = false := by decide

/-- C5 (amended): credential parsing splits on every colon and succeeds
only when exactly two parts result (so a secret containing a colon is
rejected, not preserved); for every message the split rejects — in
particular any message without a colon — a generic error is reported, no
POST is attempted, and the state (the user's AwaitingCredentials state
and the session store included) is unchanged. -/
theorem malformed_credentials_rejected (uid : Nat) (username : Option String)
    (msgText : String) (env : LoginEnv) (st : BotState)
    (hwait : lookupKey uid st.userStates = some "waiting_student_credentials")
    (hp : parse_credentials msgText = none) :
    (handle_student_credentials uid username msgText env st).reply = .genericError
      ∧ (handle_student_credentials uid username msgText env st).posted = false
      ∧ (handle_student_credentials uid username msgText env st).state = st
      ∧ lookupKey uid
          (handle_student_credentials uid username msgText env st).state.userStates
          = some "waiting_student_credentials" := by
  rw [handle_student_credentials, hp]
  exact ⟨rfl, rfl, rfl, hwait⟩

/-- Witness for C5 (amended): a message with no colon, from a user who
is awaiting credentials. -/
theorem malformed_credentials_rejected_witness :
    (handle_student_credentials 7 none "nocolon" c5Env
        ⟨[], [(7, "waiting_student_credentials")], []⟩).reply = .genericError
      ∧ (handle_student_credentials 7 none "nocolon" c5Env
          ⟨[], [(7, "waiting_student_credentials")], []⟩).state
          = ⟨[], [(7, "waiting_student_credentials")], []⟩ :=
  ⟨(malformed_credentials_rejected 7 none "nocolon" c5Env
      ⟨[], [(7, "waiting_student_credentials")], []⟩ (by decide) (by decide)).1,
    (malformed_credentials_rejected 7 none "nocolon" c5Env
      ⟨[], [(7, "waiting_student_credentials")], []⟩ (by decide) (by decide)).2.2.1⟩

/-! ## Navigation engine (bot.py lines 143-421)

The filesystem is abstracted by the observations the code makes of it:
`os.listdir` + per-entry `os.path.isdir` as a map from directory path to
its listing (`none` when the path is missing), and `os.path.exists` for
file delivery.  A path that exists but is a regular file would make the
directory branch raise inside `os.listdir`; this corner is modelled as
the missing-directory branch and is not used by any claim. -/

/-- The filesystem as observed by the navigation handlers. -/
structure NavFS where
  entries : String → Option (List Entry)
  fileExists : String → Bool

/-- Which Back affordance the current message carries:
`back_to_menu` or `back_to_parent`. -/
inductive BackTok
  | toMenu
  | toParent
deriving DecidableEq, Repr

/-- The message currently shown to the user, as far as navigation is
concerned. -/
inductive Screen
  | mainMenu
  | listing (dir : String) (items : List Entry) (back : BackTok)
  | emptyListing (back : BackTok)
  | notAvailable (back : BackTok)
  | fileUnavailable
  | errorScreen
deriving DecidableEq, Repr

/-- The Back control of each screen (`fileUnavailable` always carries a
`back_to_menu` button, line 414). -/
def Screen.backControl : Screen → Option BackTok
  | .mainMenu => none
  | .listing _ _ b => some b
  | .emptyListing b => some b
  | .notAvailable b => some b
  | .fileUnavailable => some .toMenu
  | .errorScreen => none

/-- The per-user navigation slice of `context.user_data`:
`dir_stack` (top of stack last, as for a Python list), `paths`, and the
rendered screen. -/
structure NavState where
  dirStack : List String
  paths : List (String × String)
  screen : Screen
deriving DecidableEq, Repr

/-- `show_year_materials` (lines 143-197): `dir_stack` is set to
`[year_dir]` at line 154 BEFORE the existence check, hence in every
branch; `paths` is rebuilt only when the listing is non-empty. -/
def enterYear (fs : NavFS) (isBook : Bool) (year : String) (st : NavState) : NavState :=
  let yearDir := joinPath (if isBook then "study_materials" else "study_summaries")
    ("year_" ++ year)
  match fs.entries yearDir with
  | some items =>
    if items.isEmpty then
      { dirStack := [yearDir], paths := st.paths, screen := .emptyListing .toMenu }
    else
      { dirStack := [yearDir], paths := pathsTable yearDir items
        screen := .listing yearDir items .toMenu }
  | none => { dirStack := [yearDir], paths := st.paths, screen := .notAvailable .toMenu }

/-- The directory branch of `button_handler` (lines 304-351): resolve
the token, and for an existing non-empty directory push it and re-render
with fresh tokens and a `back_to_parent` button; an empty directory is
announced WITHOUT being pushed; a missing path is announced as not
available. -/
def enterDir (fs : NavFS) (tok : String) (st : NavState) : NavState :=
  match List.lookup tok st.paths with
  | some p =>
    match fs.entries p with
    | some items =>
      if items.isEmpty then { st with screen := .emptyListing .toParent }
      else
        { dirStack := st.dirStack ++ [p], paths := pathsTable p items
          screen := .listing p items .toParent }
    | none => { st with screen := .notAvailable .toParent }
  | none => { st with screen := .notAvailable .toParent }

/-- The `back_to_parent` branch (lines 353-401): with at most one stack
entry the whole branch is a no-op; otherwise the stack is popped and the
parent re-rendered, the new back control being `back_to_menu` exactly
when a single entry remains.  The pop precedes `os.listdir`, so a
vanished parent leaves a popped stack and an uncaught error
(`errorScreen`). -/
def backToParent (fs : NavFS) (st : NavState) : NavState :=
  if st.dirStack.length > 1 then
    let stack' := st.dirStack.dropLast
    match stack'.getLast? with
    | some parent =>
      match fs.entries parent with
      | some items =>
        if items.isEmpty then
          { dirStack := stack', paths := st.paths, screen := .emptyListing .toMenu }
        else
          { dirStack := stack', paths := pathsTable parent items
            screen := .listing parent items
              (if stack'.length == 1 then .toMenu else .toParent) }
      | none => { dirStack := stack', paths := st.paths, screen := .errorScreen }
    | none => st
  else st

/-- What the file branch delivers. -/
inductive Delivery
  | document (path : String)
  | noDelivery
deriving DecidableEq, Repr

/-- The file branch of `button_handler` (lines 403-421): an existing
resolved path is sent as a new document message, leaving the menu (and
all navigation state) in place; otherwise the message becomes the
unavailable notice with a `back_to_menu` button. -/
def selectFile (fs : NavFS) (tok : String) (st : NavState) : NavState × Delivery :=
  match List.lookup tok st.paths with
  | some p =>
    if fs.fileExists p then (st, .document p)
    else ({ st with screen := .fileUnavailable }, .noDelivery)
  | none => ({ st with screen := .fileUnavailable }, .noDelivery)

/-- The `back_to_menu` branch (lines 270-274): render the main menu;
`dir_stack` and `paths` are not touched. -/
def backToMenu (st : NavState) : NavState :=
  { st with screen := .mainMenu }

/-- Pressing the Back button currently on screen dispatches to the
branch named by its callback data. -/
def pressBack (fs : NavFS) (st : NavState) : NavState :=
  match st.screen.backControl with
  | some .toParent => backToParent fs st
  | some .toMenu => backToMenu st
  | none => st

/-- Iterated Back presses. -/
def backSteps (fs : NavFS) : Nat → NavState → NavState
  | 0, st => st
  | n + 1, st => backSteps fs n (pressBack fs st)

/-- A directory that exists and has a non-empty listing. -/
def goodDir (fs : NavFS) (d : String) : Prop :=
  ∃ items, fs.entries d = some items ∧ items ≠ []

/-- The canonical state while browsing below year root `r` with the
directories `ds` pushed above it, the current directory `top` (the last
stack entry) showing listing `items`. -/
def browsing (r : String) (ds : List String) (top : String) (items : List Entry) :
    NavState :=
  { dirStack := r :: ds
    paths := pathsTable top items
    screen := .listing top items (if ds.isEmpty then .toMenu else .toParent) }

theorem length_gt_one_concat (r : String) (ds : List String) (d : String) :
    (r :: (ds ++ [d])).length > 1 := by
  simp

theorem pressBack_browsing (fs : NavFS) (r parent : String) (ds : List String)
    (d : String) (items pitems : List Entry)
    (hpar : (r :: ds).getLast? = some parent)
    (hfs : fs.entries parent = some pitems) (hne : pitems ≠ []) :
    pressBack fs (browsing r (ds ++ [d]) d items) = browsing r ds parent pitems := by
  have hpe : pitems.isEmpty = false := by
    cases pitems
    · exact absurd rfl hne
    · rfl
  have hback : (if (ds ++ [d]).isEmpty then BackTok.toMenu else BackTok.toParent)
      = BackTok.toParent := by simp
  have hlen : ((r :: (ds ++ [d])).length > 1) = True := by simp
  have hif : (((r : String) :: ds).length == 1) = ds.isEmpty := by
    cases ds <;> rfl
  simp only [browsing, pressBack, backToParent, backToMenu, Screen.backControl, hback,
    ← List.cons_append, List.dropLast_concat, hlen, if_true, hpar, hfs, hpe,
    Bool.false_eq_true, if_false, hif]
  rw [if_pos (by simp)]

theorem take_append_left {α : Type} (l₁ l₂ : List α) (n : Nat) (h : n ≤ l₁.length) :
    (l₁ ++ l₂).take n = l₁.take n := by
  rw [List.take_append_eq_append_take]
  have h0 : n - l₁.length = 0 := by omega
  simp [h0]

theorem backSteps_browsing_take (fs : NavFS) (r : String) (rItems : List Entry)
    (hr : fs.entries r = some rItems) (hrne : rItems ≠ []) :
    ∀ (ds : List String), (∀ x ∈ ds, goodDir fs x) →
      ∀ (top : String) (items : List Entry),
        (r :: ds).getLast? = some top → fs.entries top = some items → items ≠ [] →
        ∀ k, k ≤ ds.length →
          ∃ ds' top' items',
            backSteps fs k (browsing r ds top items) = browsing r ds' top' items'
              ∧ ds' = ds.take (ds.length - k)
              ∧ (r :: ds').getLast? = some top'
              ∧ fs.entries top' = some items' ∧ items' ≠ [] := by
  intro ds
  induction ds using List.reverseRecOn with
  | nil =>
    intro _ top items hlast hfs hne k hk
    have hk0 : k = 0 := by simpa using hk
    subst hk0
    exact ⟨[], top, items, rfl, rfl, hlast, hfs, hne⟩
  | append_singleton ds d ih =>
    intro hgood top items hlast hfs hne k hk
    cases k with
    | zero =>
      exact ⟨ds ++ [d], top, items, rfl, by simp, hlast, hfs, hne⟩
    | succ k' =>
      have htop : top = d := by
        rw [← List.cons_append, List.getLast?_concat] at hlast
        exact ((Option.some.injEq d top).mp hlast).symm
      subst htop
      have hcons : (r :: ds) ≠ [] := by simp
      obtain ⟨parent, hpar⟩ : ∃ p, (r :: ds).getLast? = some p := by
        rw [List.getLast?_eq_getLast_of_ne_nil hcons]
        exact ⟨_, rfl⟩
      have hparmem : parent ∈ r :: ds := List.mem_of_getLast?_eq_some hpar
      obtain ⟨pitems, hpfs, hpne⟩ :
          ∃ pitems, fs.entries parent = some pitems ∧ pitems ≠ [] := by
        rcases List.mem_cons.mp hparmem with h | h
        · subst h
          exact ⟨rItems, hr, hrne⟩
        · exact hgood parent (by simp [h])
      rw [backSteps, pressBack_browsing fs r parent ds top items pitems hpar hpfs hpne]
      have hk' : k' ≤ ds.length := by
        rw [List.length_append, List.length_singleton] at hk
        omega
      obtain ⟨ds', top', items', h1, h2, h3, h4, h5⟩ :=
        ih (fun x hx => hgood x (by simp [hx])) parent pitems hpar hpfs hpne k' hk'
      refine ⟨ds', top', items', h1, ?_, h3, h4, h5⟩
      rw [h2]
      rw [show (ds ++ [top]).length - (k' + 1) = ds.length - k' from by
        rw [List.length_append, List.length_singleton]
        omega]
      exact (take_append_left ds [top] _ (by omega)).symm

/-! ### Claim C7 -/

/-- Concrete filesystem for the C7 counterexample: year 1 of the books
tree holds one directory `Math`, which holds one file. -/
def c7FS : NavFS where
  entries p :=
    if p = "study_materials/year_1" then some [⟨"Math", true⟩]
    else if p = "study_materials/year_1/Math" then some [⟨"ch1.pdf", false⟩]
    else none
  fileExists p := p = "study_materials/year_1/Math/ch1.pdf"

/-- Counterexample for C7 with `N = 1`: entering year 1 (stack
`[root]`), pushing one directory and pressing Back once re-renders the
year root listing — not MainMenu; a second Back (the `back_to_menu`
control now shown) reaches MainMenu. -/
theorem back_n_times_not_main_menu :
    (pressBack c7FS (enterDir c7FS "d1"
        (enterYear c7FS true "1" ⟨[], [], .mainMenu⟩))).screen ≠ Screen.mainMenu
      ∧ (pressBack c7FS (pressBack c7FS (enterDir c7FS "d1"
          (enterYear c7FS true "1" ⟨[], [], .mainMenu⟩)))).screen = Screen.mainMenu := by
  decide

/-- C7 (amended): starting from the browsing state with year root `r`
and `N` pushed directories, `N` Back presses return the user to the
year-root listing (the root's children, with a `back_to_menu` control),
each intermediate render showing exactly the children of the directory
then on top of the stack; the NEXT Back press (the `N+1`-st) reaches
MainMenu. -/
theorem back_n_times_returns_to_root (fs : NavFS) (r : String) (rItems : List Entry)
    (ds : List String) (top : String) (items : List Entry)
    (hr : fs.entries r = some rItems) (hrne : rItems ≠ [])
    (hds : ∀ x ∈ ds, goodDir fs x)
    (hlast : (r :: ds).getLast? = some top)
    (hfs : fs.entries top = some items) (hne : items ≠ []) :
    (∀ k ≤ ds.length, ∃ ds' top' items',
        backSteps fs k (browsing r ds top items) = browsing r ds' top' items'
          ∧ ds' = ds.take (ds.length - k)
          ∧ (r :: ds').getLast? = some top'
          ∧ fs.entries top' = some items' ∧ items' ≠ [])
      ∧ backSteps fs ds.length (browsing r ds top items) = browsing r [] r rItems
      ∧ (browsing r [] r rItems).screen = .listing r rItems .toMenu
      ∧ (browsing r [] r rItems).screen ≠ .mainMenu
      ∧ pressBack fs (browsing r [] r rItems)
          = { browsing r [] r rItems with screen := .mainMenu } := by
  have hmain := backSteps_browsing_take fs r rItems hr hrne ds hds top items hlast hfs hne
  refine ⟨hmain, ?_, by simp [browsing], by simp [browsing], ?_⟩
  · obtain ⟨ds', top', items', h1, h2, h3, h4, h5⟩ := hmain ds.length (le_refl _)
    rw [Nat.sub_self, List.take_zero] at h2
    subst h2
    have htop : top' = r := by
      rw [show ((r :: ([] : List String)).getLast? = some r) from rfl] at h3
      exact ((Option.some.injEq r top').mp h3).symm
    subst htop
    have hitems : items' = rItems := by
      rw [hr] at h4
      exact (Option.some.injEq _ _).mp h4.symm
    subst hitems
    exact h1
  · rfl

/-- Witness for C7 (amended) on the concrete tree: one pushed directory,
one Back press, back at the year-root listing. -/
theorem back_n_times_returns_to_root_witness :
    backSteps c7FS 1
        (browsing "study_materials/year_1" ["study_materials/year_1/Math"]
          "study_materials/year_1/Math" [⟨"ch1.pdf", false⟩])
      = browsing "study_materials/year_1" [] "study_materials/year_1" [⟨"Math", true⟩] :=
  (back_n_times_returns_to_root c7FS "study_materials/year_1" [⟨"Math", true⟩]
    ["study_materials/year_1/Math"] "study_materials/year_1/Math" [⟨"ch1.pdf", false⟩]
    rfl (by decide)
    (by
      intro x hx
      rw [List.mem_singleton] at hx
      subst hx
      exact ⟨[⟨"ch1.pdf", false⟩], rfl, by decide⟩)
    (by decide) rfl (by decide)).2.1

/-! ### Claim C8 -/

theorem backToParent_noop (fs : NavFS) (st : NavState) (h : st.dirStack.length ≤ 1) :
    backToParent fs st = st := by
  rw [backToParent, if_neg (by omega)]

theorem backToParent_pops (fs : NavFS) (st : NavState) (h : 2 ≤ st.dirStack.length) :
    (backToParent fs st).dirStack = st.dirStack.dropLast := by
  rw [backToParent, if_pos (by omega)]
  have hne : st.dirStack.dropLast ≠ [] := by
    have hlen := List.length_dropLast st.dirStack
    intro hcon
    rw [hcon] at hlen
    simp at hlen
    omega
  simp only [List.getLast?_eq_getLast_of_ne_nil hne]
  cases hfe : fs.entries (st.dirStack.dropLast.getLast hne) with
  | none => rfl
  | some its =>
    cases hi : its.isEmpty <;> simp [hi]

theorem dropLast_ne_nil_of_two_le {α : Type} (l : List α) (h : 2 ≤ l.length) :
    l.dropLast ≠ [] := by
  have hlen := List.length_dropLast l
  intro hcon
  rw [hcon] at hlen
  simp at hlen
  omega

/-- C8: the navigation invariant — entering a year initializes
`dir_stack` to exactly `[year_dir]`; entering a directory, Back, and
file selection all preserve non-emptiness of a non-empty stack; the Back
branch pops only when at least two entries remain (with at most one it
is a no-op), and on a screen whose Back control is `back_to_menu` the
Back press transitions out to the main menu without touching the
stack. -/
theorem dir_stack_never_empty (fs : NavFS) (st : NavState) (tok year : String)
    (isBook : Bool) (h : st.dirStack ≠ []) :
    (enterYear fs isBook year st).dirStack
        = [joinPath (if isBook then "study_materials" else "study_summaries")
            ("year_" ++ year)]
      ∧ (enterDir fs tok st).dirStack ≠ []
      ∧ (backToParent fs st).dirStack ≠ []
      ∧ (selectFile fs tok st).1.dirStack = st.dirStack
      ∧ (st.dirStack.length ≤ 1 → backToParent fs st = st)
      ∧ (2 ≤ st.dirStack.length →
          (backToParent fs st).dirStack = st.dirStack.dropLast
            ∧ (backToParent fs st).dirStack ≠ [])
      ∧ (st.screen.backControl = some .toMenu →
          pressBack fs st = { st with screen := .mainMenu }) := by
  refine ⟨?_, ?_, ?_, ?_, backToParent_noop fs st, ?_, ?_⟩
  · rw [enterYear]
    cases hfe : fs.entries (joinPath (if isBook then "study_materials"
        else "study_summaries") ("year_" ++ year)) with
    | none => rfl
    | some its => cases hi : its.isEmpty <;> simp [hi]
  · rw [enterDir]
    cases hl : List.lookup tok st.paths with
    | none => exact h
    | some p =>
      dsimp only
      cases hfe : fs.entries p with
      | none => exact h
      | some its =>
        dsimp only
        cases hi : its.isEmpty with
        | true => simpa [hi] using h
        | false => simp [hi]
  · by_cases hlen : st.dirStack.length ≤ 1
    · rw [backToParent_noop fs st hlen]
      exact h
    · rw [backToParent_pops fs st (by omega)]
      exact dropLast_ne_nil_of_two_le _ (by omega)
  · rw [selectFile]
    cases hl : List.lookup tok st.paths with
    | none => rfl
    | some p =>
      dsimp only
      cases hfe : fs.fileExists p <;> simp [hfe]
  · intro h2
    refine ⟨backToParent_pops fs st h2, ?_⟩
    rw [backToParent_pops fs st h2]
    exact dropLast_ne_nil_of_two_le _ h2
  · intro hback
    rw [pressBack, hback]
    rfl

/-- Witness for C8 at a concrete browsing state with two stack
entries. -/
theorem dir_stack_never_empty_witness :
    (backToParent c7FS
        ⟨["study_materials/year_1", "study_materials/year_1/Math"],
          [("f1", "study_materials/year_1/Math/ch1.pdf")],
          .listing "study_materials/year_1/Math" [⟨"ch1.pdf", false⟩] .toParent⟩).dirStack
      ≠ [] :=
  (dir_stack_never_empty c7FS
    ⟨["study_materials/year_1", "study_materials/year_1/Math"],
      [("f1", "study_materials/year_1/Math/ch1.pdf")],
      .listing "study_materials/year_1/Math" [⟨"ch1.pdf", false⟩] .toParent⟩
    "d1" "1" true (by decide)).2.2.1

/-! ## Logout and the dispatch chain (bot.py lines 227-247, 249-421) -/

/-- `handle_logout` (lines 227-247): only when the user has a session,
remove it together with the user's `file_data` and `user_states`
entries.  `context.user_data` — the NavigationContext — is not
touched. -/
def handle_logout (uid : Nat) (g : BotState) : BotState :=
  match lookupKey uid g.sessions with
  | some _ =>
    { sessions := eraseKey uid g.sessions
      userStates := eraseKey uid g.userStates
      fileData := eraseKey uid g.fileData }
  | none => g

theorem lookupKey_eraseKey {β : Type} (k : Nat) (l : List (Nat × β)) :
    lookupKey k (eraseKey k l) = none := by
  induction l with
  | nil => rfl
  | cons p rest ih =>
    obtain ⟨a, b⟩ := p
    cases hk : (a == k) with
    | true =>
      have hred : eraseKey k ((a, b) :: rest) = eraseKey k rest := by
        simp [eraseKey, List.filter_cons, hk]
      rw [hred]
      exact ih
    | false =>
      have hred : eraseKey k ((a, b) :: rest) = (a, b) :: eraseKey k rest := by
        simp [eraseKey, List.filter_cons, hk]
      have hk2 : (k == a) = false := by
        simp only [beq_eq_false_iff_ne, ne_eq] at hk ⊢
        exact fun hEq => hk hEq.symm
      rw [hred, lookupKey, List.lookup_cons, hk2]
      exact ih

/-- The three top-level material categories. -/
inductive MenuKind
  | books
  | summaries
  | playlists
deriving DecidableEq, Repr

/-- What the dispatch chain sends back to the user. -/
inductive Output
  | mainMenuLoggedIn (e : SessionEntry)
  | roleMenu
  | promptCredentials
  | loggedOut
  | yearMenu (k : MenuKind)
  | playlistLinks (year : String) (links : List (String × String))
  | playlistUnavailable
  | navRender
  | document (path : String)
  | ignored
deriving DecidableEq, Repr

/-- `show_playlist_links` (lines 199-225): render the stored links of
`year_<year>` or the unavailable notice. -/
def show_playlist_links (pl : String → Option (List (String × String))) (year : String) :
    Output :=
  match pl ("year_" ++ year) with
  | some links => .playlistLinks year links
  | none => .playlistUnavailable

/-- The `elif` chain of `button_handler` (lines 249-421), in source
order.  The browsing branches read and write only the navigation slice;
the session store is consulted only by the `student` and `back_to_menu`
branches and mutated only by `student` (state prompt) and `logout`. -/
def button_handler (fs : NavFS) (pl : String → Option (List (String × String)))
    (uid : Nat) (data msgText : String) (g : BotState) (nav : NavState) :
    BotState × NavState × Output :=
  if data == "student" then
    match lookupKey uid g.sessions with
    | some e => (g, nav, .mainMenuLoggedIn e)
    | none =>
      ({ g with userStates := insertKey uid "waiting_student_credentials" g.userStates },
        nav, .promptCredentials)
  else if data == "logout" then
    (handle_logout uid g, nav, .loggedOut)
  else if data == "back_to_menu" then
    match lookupKey uid g.sessions with
    | some e => (g, backToMenu nav, .mainMenuLoggedIn e)
    | none => (g, backToMenu nav, .roleMenu)
  else if data == "back_to_years" then
    (g, nav,
      if strContains msgText "للكتب" then .yearMenu .books
      else if strContains msgText "للملخصات" then .yearMenu .summaries
      else .yearMenu .playlists)
  else if data == "download_books" then (g, nav, .yearMenu .books)
  else if data == "download_summaries" then (g, nav, .yearMenu .summaries)
  else if data == "study_playlists" then (g, nav, .yearMenu .playlists)
  else if strStartsWith data "year_" then
    let year :=
      match pySplit data '_' with
      | _ :: y :: _ => y
      | _ => ""
    if strStartsWith msgText "اختر الفرقة الدراسية للكتب" then
      (g, enterYear fs true year nav, .navRender)
    else if strStartsWith msgText "اختر الفرقة الدراسية للملخصات" then
      (g, enterYear fs false year nav, .navRender)
    else (g, nav, show_playlist_links pl year)
  else if strStartsWith data "d" then (g, enterDir fs data nav, .navRender)
  else if data == "back_to_parent" then (g, backToParent fs nav, .navRender)
  else if strStartsWith data "f" then
    match selectFile fs data nav with
    | (nav', .document p) => (g, nav', .document p)
    | (nav', .noDelivery) => (g, nav', .navRender)
  else (g, nav, .ignored)

/-! ### Claim C9 -/

/-- Concrete session entry for the C9 counterexample. -/
def c9Entry : SessionEntry := ⟨"Ahmed Ali", "a@fci.edu", "3", none, "", ""⟩

/-- Concrete global state for the C9 counterexample: user 1 is logged
in. -/
def c9G : BotState := ⟨[(1, c9Entry)], [(1, "student_menu")], []⟩

/-- Concrete NavigationContext for the C9 counterexample: user 1 is
browsing year 1 with a live file token. -/
def c9Nav : NavState :=
  ⟨["study_materials/year_1"], [("f1", "study_materials/year_1/a.pdf")],
    .listing "study_materials/year_1" [⟨"a.pdf", false⟩] .toMenu⟩

/-- Counterexample for C9: pressing `logout` removes user 1's session
entry, yet the NavigationContext survives unchanged and the stale token
`f1` still resolves to its path afterwards — the claimed cascade to the
NavigationContext does not happen. -/
theorem logout_keeps_stale_tokens :
    lookupKey 1 (button_handler c7FS (fun _ => none) 1 "logout" "" c9G c9Nav).1.sessions
        = none
      ∧ (button_handler c7FS (fun _ => none) 1 "logout" "" c9G c9Nav).2.1 = c9Nav
      ∧ List.lookup "f1"
          (button_handler c7FS (fun _ => none) 1 "logout" "" c9G c9Nav).2.1.paths
        = some "study_materials/year_1/a.pdf" := by
  decide

/-- C9 (amended): for every user with a session, logout removes that
user's session-store entry, their in-flight interactive state
(`user_states`) and temporary file data, but does NOT clear the
NavigationContext — the directory stack and the token-to-path table
survive logout unchanged, so every token resolves afterwards exactly as
it did before. -/
theorem logout_removes_session_keeps_nav (fs : NavFS)
    (pl : String → Option (List (String × String))) (uid : Nat) (msgText : String)
    (g : BotState) (nav : NavState) (e : SessionEntry)
    (hs : lookupKey uid g.sessions = some e) :
    lookupKey uid (button_handler fs pl uid "logout" msgText g nav).1.sessions = none
      ∧ lookupKey uid (button_handler fs pl uid "logout" msgText g nav).1.userStates
          = none
      ∧ lookupKey uid (button_handler fs pl uid "logout" msgText g nav).1.fileData = none
      ∧ (button_handler fs pl uid "logout" msgText g nav).2.1 = nav
      ∧ ∀ tok, List.lookup tok (button_handler fs pl uid "logout" msgText g nav).2.1.paths
          = List.lookup tok nav.paths := by
  have hb : button_handler fs pl uid "logout" msgText g nav
      = (handle_logout uid g, nav, .loggedOut) := by
    rw [button_handler]
    rfl
  rw [hb]
  have hlg : handle_logout uid g
      = { sessions := eraseKey uid g.sessions
          userStates := eraseKey uid g.userStates
          fileData := eraseKey uid g.fileData } := by
    rw [handle_logout, hs]
  rw [hlg]
  exact ⟨lookupKey_eraseKey uid g.sessions, lookupKey_eraseKey uid g.userStates,
    lookupKey_eraseKey uid g.fileData, rfl, fun _ => rfl⟩

/-- Witness for C9 (amended) at the concrete logged-in state. -/
theorem logout_removes_session_keeps_nav_witness :
    lookupKey 1 (button_handler c7FS (fun _ => none) 1 "logout" "" c9G c9Nav).1.sessions
        = none
      ∧ (button_handler c7FS (fun _ => none) 1 "logout" "" c9G c9Nav).2.1 = c9Nav :=
  ⟨(logout_removes_session_keeps_nav c7FS (fun _ => none) 1 "" c9G c9Nav c9Entry rfl).1,
    (logout_removes_session_keeps_nav c7FS (fun _ => none) 1 "" c9G c9Nav c9Entry
      rfl).2.2.2.1⟩

/-! ### Claim C10 -/

theorem ne_of_starts {data : String} (c p : String) (h : strStartsWith data p = true)
    (hc : strStartsWith c p = false) : (data == c) = false := by
  simp only [beq_eq_false_iff_ne, ne_eq]
  intro hEq
  rw [hEq] at h
  rw [h] at hc
  simp at hc

theorem starts_head {data p : String} {c : Char} {t : List Char}
    (hp : p.data = c :: t) (h : strStartsWith data p = true) :
    ∃ u, data.data = c :: u := by
  rw [strStartsWith] at h
  have hpl : p.toList = c :: t := hp
  rw [hpl] at h
  cases hdata : data.toList with
  | nil =>
    rw [hdata] at h
    simp [List.isPrefixOf] at h
  | cons x xs =>
    rw [hdata] at h
    simp only [List.isPrefixOf, Bool.and_eq_true, beq_iff_eq] at h
    exact ⟨xs, by rw [show data.data = x :: xs from hdata, h.1]⟩

theorem not_starts_of_head_ne {data q : String} {c d : Char} {u t : List Char}
    (hdata : data.data = c :: u) (hq : q.data = d :: t) (hne : d ≠ c) :
    strStartsWith data q = false := by
  rw [strStartsWith]
  have hql : q.toList = d :: t := hq
  have hdl : data.toList = c :: u := hdata
  rw [hql, hdl]
  have hb : (d == c) = false := by
    simp only [beq_eq_false_iff_ne, ne_eq]
    exact hne
  simp [List.isPrefixOf, hb]

/-- C10: browsing and file delivery are independent of authentication —
for every year-selection token, directory token (other than the two
`download_*` menu commands that share the `d` first letter), and file
token, the dispatch chain neither reads nor writes the session store
(or any of the global per-user dictionaries): the resulting navigation
state and output are identical for any two global states, each of which
passes through untouched. -/
theorem browsing_ignores_sessions (fs : NavFS)
    (pl : String → Option (List (String × String))) (uid : Nat)
    (data msgText : String) (g₁ g₂ : BotState) (nav : NavState)
    (hd : strStartsWith data "year_" = true
        ∨ (strStartsWith data "d" = true
            ∧ data ≠ "download_books" ∧ data ≠ "download_summaries")
        ∨ strStartsWith data "f" = true) :
    (button_handler fs pl uid data msgText g₁ nav).2
        = (button_handler fs pl uid data msgText g₂ nav).2
      ∧ (button_handler fs pl uid data msgText g₁ nav).1 = g₁
      ∧ (button_handler fs pl uid data msgText g₂ nav).1 = g₂ := by
  rcases hd with hy | ⟨hdd, hnb, hns⟩ | hf
  · have h1 := ne_of_starts "student" "year_" hy (by decide)
    have h2 := ne_of_starts "logout" "year_" hy (by decide)
    have h3 := ne_of_starts "back_to_menu" "year_" hy (by decide)
    have h4 := ne_of_starts "back_to_years" "year_" hy (by decide)
    have h5 := ne_of_starts "download_books" "year_" hy (by decide)
    have h6 := ne_of_starts "download_summaries" "year_" hy (by decide)
    have h7 := ne_of_starts "study_playlists" "year_" hy (by decide)
    rw [button_handler, button_handler]
    simp only [h1, h2, h3, h4, h5, h6, h7, hy, Bool.false_eq_true, if_false, if_true]
    refine ⟨?_, ?_, ?_⟩ <;>
      cases hm1 : strStartsWith msgText "اختر الفرقة الدراسية للكتب" <;>
      cases hm2 : strStartsWith msgText "اختر الفرقة الدراسية للملخصات" <;>
      simp [hm1, hm2]
  · have h1 := ne_of_starts "student" "d" hdd (by decide)
    have h2 := ne_of_starts "logout" "d" hdd (by decide)
    have h3 := ne_of_starts "back_to_menu" "d" hdd (by decide)
    have h4 := ne_of_starts "back_to_years" "d" hdd (by decide)
    have h5 : (data == "download_books") = false := by
      simpa only [beq_eq_false_iff_ne, ne_eq] using hnb
    have h6 : (data == "download_summaries") = false := by
      simpa only [beq_eq_false_iff_ne, ne_eq] using hns
    have h7 := ne_of_starts "study_playlists" "d" hdd (by decide)
    obtain ⟨u, hu⟩ := starts_head (c := 'd') (t := []) rfl hdd
    have hy : strStartsWith data "year_" = false :=
      not_starts_of_head_ne hu rfl (by decide)
    rw [button_handler, button_handler]
    simp only [h1, h2, h3, h4, h5, h6, h7, hy, hdd, Bool.false_eq_true, if_false, if_true]
    simp
  · have h1 := ne_of_starts "student" "f" hf (by decide)
    have h2 := ne_of_starts "logout" "f" hf (by decide)
    have h3 := ne_of_starts "back_to_menu" "f" hf (by decide)
    have h4 := ne_of_starts "back_to_years" "f" hf (by decide)
    have h5 := ne_of_starts "download_books" "f" hf (by decide)
    have h6 := ne_of_starts "download_summaries" "f" hf (by decide)
    have h7 := ne_of_starts "study_playlists" "f" hf (by decide)
    have h8 := ne_of_starts "back_to_parent" "f" hf (by decide)
    obtain ⟨u, hu⟩ := starts_head (c := 'f') (t := []) rfl hf
    have hy : strStartsWith data "year_" = false :=
      not_starts_of_head_ne hu rfl (by decide)
    have hdd : strStartsWith data "d" = false :=
      not_starts_of_head_ne hu rfl (by decide)
    rw [button_handler, button_handler]
    simp only [h1, h2, h3, h4, h5, h6, h7, h8, hy, hdd, hf, Bool.false_eq_true, if_false,
      if_true]
    cases hsel : selectFile fs data nav with
    | mk nav' dv =>
      cases dv <;> simp

/-- Witness for C10: with the concrete tree, pressing the stale file
token `f1` behaves identically for a logged-in state and for the empty
session store. -/
theorem browsing_ignores_sessions_witness :
    (button_handler c7FS (fun _ => none) 1 "f1" "" c9G c9Nav).2
        = (button_handler c7FS (fun _ => none) 1 "f1" "" ⟨[], [], []⟩ c9Nav).2
      ∧ (button_handler c7FS (fun _ => none) 1 "f1" "" c9G c9Nav).1 = c9G :=
  ⟨(browsing_ignores_sessions c7FS (fun _ => none) 1 "f1" "" c9G ⟨[], [], []⟩ c9Nav
      (Or.inr (Or.inr (by decide)))).1,
    (browsing_ignores_sessions c7FS (fun _ => none) 1 "f1" "" c9G ⟨[], [], []⟩ c9Nav
      (Or.inr (Or.inr (by decide)))).2.1⟩
